import Mathlib

/-!
Verification development for the repository file `src/infra/pubsub.py`.

The file shallowly embeds the two classes of the source:

* `PubsubConnectionConf` (lines 13-60): credential loading, the
  `GOOGLE_CLOUD_PROJECT` environment lookup, batch settings and publisher
  options.  Filesystem and environment reads are passed in as explicit
  functions (`load`, `env`).
* `PubsubManager.publish` (lines 94-128): construction of the `_params`
  keyword dictionary, JSON serialization of the message (`json.dumps`
  followed by `str.encode`, i.e. UTF-8), and the forwarding call
  `self._client.publish(**_params)` followed by `future.result()`.
  The wrapped third-party client is an explicit parameter mapping the
  keyword dictionary to a future.

Components that exist only in the specification's redesigned core
(OrderingLane, Batcher) are modelled from the spec's words further below
and are marked as such in their doc comments.
-/

/-! ## Configuration layer: `PubsubConnectionConf` (lines 13-60) -/

/-- Embedding of `_DEFAULT_BATCH_MESSAGES_ = 100` (line 15). -/
def DEFAULT_BATCH_MESSAGES : Nat := 100

/-- Embedding of `_DEFAULT_MESSAGE_SIZE_ = 10**6` (line 16). -/
def DEFAULT_MESSAGE_SIZE : Nat := 10 ^ 6

/-- Third-party `BatchSettings` value: only the two fields the source sets. -/
structure BatchSettings where
  max_bytes : Nat
  max_messages : Nat
deriving DecidableEq, Repr

/-- Third-party `PublisherOptions` value: the ordering flag the source sets;
`retry=Retry()` is recorded as the boolean fact that a default retry object
was supplied. -/
structure PublisherOptions where
  enable_message_ordering : Bool
  retry_default : Bool
deriving DecidableEq, Repr

/-- Opaque credentials object produced by
`Credentials.from_service_account_file` (lines 28-31); we record the file it
was loaded from. -/
structure Credentials where
  source_file : String
deriving DecidableEq, Repr

/-- Python exceptions the constructor can raise: the explicit
`ValueError` of `__get_default_env` (line 46) and a file error from the
credentials loader. -/
inductive PyErr where
  | valueError (msg : String)
  | fileNotFound (f : String)
deriving DecidableEq, Repr

/-- Embedding of the attribute state a fully constructed
`PubsubConnectionConf` object holds (lines 26-34).  The source misspells
`bach_settings`; the field name is kept. -/
structure PubsubConnectionConf where
  credentials : Option Credentials
  project_id : String
  bach_settings : BatchSettings
  publisher_options : PublisherOptions
deriving DecidableEq, Repr

/-- Python `x or d` for an optional integer argument: the default is taken
when the value is `None` and also when it is `0` (falsy). -/
def pyOr (v : Option Nat) (dflt : Nat) : Nat :=
  match v with
  | none => dflt
  | some x => if x = 0 then dflt else x

/-- Embedding of `__set_batch_settings` (lines 49-55). -/
def setBatchSettings (max_messages max_bytes : Option Nat) : BatchSettings :=
  { max_bytes := pyOr max_bytes DEFAULT_MESSAGE_SIZE
    max_messages := pyOr max_messages DEFAULT_BATCH_MESSAGES }

/-- Embedding of `__set_publisher_options` (lines 57-60). -/
def setPublisherOptions (enable_message_ordering : Bool) : PublisherOptions :=
  { enable_message_ordering := enable_message_ordering, retry_default := true }

/-- Embedding of `__get_default_env` (lines 36-47): `os.getenv` is the
explicit function `env`; a missing variable raises `ValueError`. -/
def getDefaultEnv (env : String → Option String) (name : String) :
    Except PyErr String :=
  match env name with
  | none =>
      Except.error (PyErr.valueError
        ("The default value for " ++ name ++ " was not found in ENV FILE"))
  | some v => Except.ok v

/-- Embedding of lines 26-31: `if service_account_file:` is Python truthiness
(`None` and the empty string skip loading); an unreadable file makes the
loader fail. -/
def credentialsOf (load : String → Option Credentials)
    (service_account_file : Option String) : Except PyErr (Option Credentials) :=
  match service_account_file with
  | none => Except.ok none
  | some f =>
      if f = "" then Except.ok none
      else
        match load f with
        | none => Except.error (PyErr.fileNotFound f)
        | some c => Except.ok (some c)

/-- Embedding of `PubsubConnectionConf.__init__` (lines 18-34): load
credentials, read `GOOGLE_CLOUD_PROJECT` from the environment (raising
`ValueError` when absent), then set batch settings and publisher options. -/
def mkPubsubConnectionConf (env : String → Option String)
    (load : String → Option Credentials)
    (service_account_file : Option String) (enable_message_ordering : Bool)
    (max_messages max_bytes : Option Nat) :
    Except PyErr PubsubConnectionConf :=
  match credentialsOf load service_account_file with
  | Except.error e => Except.error e
  | Except.ok creds =>
      match getDefaultEnv env "GOOGLE_CLOUD_PROJECT" with
      | Except.error e => Except.error e
      | Except.ok pid =>
          Except.ok
            { credentials := creds
              project_id := pid
              bach_settings := setBatchSettings max_messages max_bytes
              publisher_options := setPublisherOptions enable_message_ordering }

/-! ## JSON serialization: `json.dumps` and `str.encode` (line 123) -/

/-- Python objects that `json.dumps` accepts in this embedding (floats are
left out; the claims quantify over this domain). -/
inductive PyObj where
  | none_ : PyObj
  | bool (b : Bool) : PyObj
  | int (n : Int) : PyObj
  | str (s : List Char) : PyObj
  | list (xs : List PyObj) : PyObj
  | dict (kvs : List (List Char × PyObj)) : PyObj

/-- Double-quote character. -/
def dq : Char := Char.ofNat 34

/-- Backslash character. -/
def bsl : Char := Char.ofNat 92

/-- Opening brace character. -/
def lbrace : Char := Char.ofNat 123

/-- Closing brace character. -/
def rbrace : Char := Char.ofNat 125

/-- Lowercase hexadecimal digit, as `json.dumps` emits in `\uXXXX`. -/
def hexDigit (n : Nat) : Char :=
  if n < 10 then Char.ofNat (48 + n) else Char.ofNat (87 + n)

/-- Four hexadecimal digits of a code unit. -/
def hex4 (n : Nat) : List Char :=
  [hexDigit (n / 4096 % 16), hexDigit (n / 256 % 16),
   hexDigit (n / 16 % 16), hexDigit (n % 16)]

/-- Escaping of one character inside a JSON string, as Python's
`json.dumps` with the default `ensure_ascii=True` does it: `"` and `\`
get a backslash, the named control escapes are used, every other character
outside `0x20`-`0x7e` becomes `\uXXXX` (a surrogate pair above `0xffff`). -/
def escapeChar (c : Char) : List Char :=
  let n : Nat := c.toNat
  if c = dq then [bsl, dq]
  else if c = bsl then [bsl, bsl]
  else if n = 8 then [bsl, 'b']
  else if n = 9 then [bsl, 't']
  else if n = 10 then [bsl, 'n']
  else if n = 12 then [bsl, 'f']
  else if n = 13 then [bsl, 'r']
  else if n < 32 then bsl :: 'u' :: hex4 n
  else if n < 127 then [c]
  else if n < 65536 then bsl :: 'u' :: hex4 n
  else
    let m := n - 65536
    bsl :: 'u' :: hex4 (55296 + m / 1024) ++ bsl :: 'u' :: hex4 (56320 + m % 1024)

/-- Escaping of a whole JSON string body. -/
def jsonEscape (s : List Char) : List Char :=
  (s.map escapeChar).flatten

/-- Comma-and-space separator of `json.dumps`' default item separator. -/
def commaSep : List Char := [',', ' ']

/-- Colon-and-space separator of `json.dumps`' default key separator. -/
def colonSep : List Char := [':', ' ']

/-- Join with a separator. -/
def joinSep (sep : List Char) : List (List Char) → List Char
  | [] => []
  | [x] => x
  | x :: y :: ys => x ++ sep ++ joinSep sep (y :: ys)

mutual

/-- Embedding of Python's `json.dumps` with default arguments, producing the
serialized text as a character list. -/
def dumps : PyObj → List Char
  | PyObj.none_ => "null".data
  | PyObj.bool true => "true".data
  | PyObj.bool false => "false".data
  | PyObj.int n => (toString n).data
  | PyObj.str s => dq :: jsonEscape s ++ [dq]
  | PyObj.list xs => '[' :: joinSep commaSep (dumpsList xs) ++ [']']
  | PyObj.dict kvs => lbrace :: joinSep commaSep (dumpsEntries kvs) ++ [rbrace]

/-- Serialized elements of a JSON array. -/
def dumpsList : List PyObj → List (List Char)
  | [] => []
  | x :: xs => dumps x :: dumpsList xs

/-- Serialized `"key": value` entries of a JSON object. -/
def dumpsEntries : List (List Char × PyObj) → List (List Char)
  | [] => []
  | (k, v) :: kvs =>
      (dq :: jsonEscape k ++ [dq] ++ colonSep ++ dumps v) :: dumpsEntries kvs

end

/-- UTF-8 encoding of one character, as `str.encode` (default encoding)
produces it. -/
def utf8Char (c : Char) : List Nat :=
  let n : Nat := c.toNat
  if n < 128 then [n]
  else if n < 2048 then [192 + n / 64, 128 + n % 64]
  else if n < 65536 then [224 + n / 4096, 128 + n / 64 % 64, 128 + n % 64]
  else [240 + n / 262144, 128 + n / 4096 % 64, 128 + n / 64 % 64, 128 + n % 64]

/-- UTF-8 encoding of a string, as `str.encode` with the default encoding
(line 123). -/
def utf8Encode (s : List Char) : List Nat :=
  (s.map utf8Char).flatten

/-- The byte payload `publish` builds for a message object:
`str.encode(dumps(message))` (line 123). -/
def payloadBytes (m : PyObj) : List Nat :=
  utf8Encode (dumps m)

/-! ## `PubsubManager.publish` (lines 94-128) -/

/-- Values stored in the `_params` keyword dictionary: attribute strings and
the `data` byte string. -/
inductive PValue where
  | str (s : String)
  | bytes (bs : List Nat)
deriving DecidableEq, Repr

/-- A Python dictionary with string keys, observed through lookup. -/
def DictS : Type := String → Option PValue

/-- Embedding of `d[k] = v` by way of `d.update({k: v})` for a one-key
literal. -/
def upd (d : DictS) (k : String) (v : PValue) : DictS :=
  fun q => if q = k then some v else d q

/-- Embedding of `d.update(a)`: keys of `a` win. -/
def dictUpdate (d a : DictS) : DictS :=
  fun q =>
    match a q with
    | some v => some v
    | none => d q

/-- A caller-supplied attributes dictionary as a lookup function (first
binding of a key wins, matching a Python dict literal with distinct keys). -/
def dictOfList (l : List (String × PValue)) : DictS :=
  fun q => (l.find? (fun p => p.1 == q)).map Prod.snd

/-- Embedding of the third-party `PublisherClient.topic_path` (line 89):
the documented format `projects/PROJECT/topics/TOPIC`. -/
def topicPath (project_id topic_name : String) : String :=
  "projects/" ++ project_id ++ "/topics/" ++ topic_name

/-- Embedding of lines 112-114: `_params: dict = \x7b\x7d` followed by
`if attributes: _params.update(attributes)`.  Python truthiness: `None` and
an empty dict both leave `_params` empty. -/
def attrsBase (attributes : Option (List (String × PValue))) : DictS :=
  match attributes with
  | none => fun _ => none
  | some a =>
      if a.isEmpty then (fun _ => none)
      else dictUpdate (fun _ => none) (dictOfList a)

/-- Embedding of lines 112-125: construction of the `_params` dictionary.
`if ordering_key:` follows Python truthiness (`None` and the empty string
are falsy); the final update with project, topic and data (lines 119-125)
always wins for those three keys. -/
def publishParams (conf : PubsubConnectionConf) (topic : String)
    (message : PyObj) (attributes : Option (List (String × PValue)))
    (ordering_key : Option String) : DictS :=
  let p1 : DictS := attrsBase attributes
  let p2 : DictS :=
    match ordering_key with
    | none => p1
    | some k => if k = "" then p1 else upd p1 "ordering_key" (PValue.str k)
  let p3 : DictS := upd p2 "project" (PValue.str conf.project_id)
  let p4 : DictS := upd p3 "topic" (PValue.str (topicPath conf.project_id topic))
  upd p4 "data" (PValue.bytes (payloadBytes message))

/-- Typed errors a publish future can resolve to (the spec's taxonomy for
what the wrapped client may raise). -/
inductive PubError where
  | invalidMessage (msg : String)
  | payloadTooLarge (msg : String)
  | transient (msg : String)
  | permanent (msg : String)
deriving DecidableEq, Repr

/-- The future returned by the third-party `client.publish`: its eventual
outcome, a message id or a typed error. -/
structure Future where
  outcome : Except PubError String
deriving Repr

/-- Embedding of `future.result()` (line 128): forcing the future yields the
message id or raises the error. -/
def Future.result (f : Future) : Except PubError String :=
  f.outcome

/-- Embedding of `PubsubManager.publish` (lines 94-128): build `_params`,
call `self._client.publish(**_params)` (the client is the explicit `client`
argument) and return `future.result()`.  The return value is the forced
outcome of the future: the caller gets the resolved message id or the
resolved error, nothing earlier. -/
def publish (conf : PubsubConnectionConf) (client : DictS → Future)
    (topic : String) (message : PyObj)
    (attributes : Option (List (String × PValue)))
    (ordering_key : Option String) : Except PubError String :=
  (client (publishParams conf topic message attributes ordering_key)).result

/-- A client that acknowledges every request with the fixed id `id`. -/
def clientOk (id : String) : DictS → Future :=
  fun _ => { outcome := Except.ok id }

/-- A client whose future resolves to the error `e` for every request. -/
def clientFail (e : PubError) : DictS → Future :=
  fun _ => { outcome := Except.error e }

/-- In the expansion `self._client.publish(**_params)`, the entry at key
`"ordering_key"` binds the client's `ordering_key` keyword argument (the
third-party signature declares that keyword), not a message attribute. -/
def kwargOrderingKey (p : DictS) : Option PValue :=
  p "ordering_key"

/-- Value of a key in the caller's optional attributes dict. -/
def attrsValue (a : Option (List (String × PValue))) (k : String) :
    Option PValue :=
  match a with
  | none => none
  | some l => dictOfList l k

/-- What actually reaches the client under the key `"ordering_key"`:
the publish-level parameter when it is a non-empty string, otherwise the
caller's attribute of that name, untouched. -/
def orderingForward (ordering_key : Option String) (attrVal : Option PValue) :
    Option PValue :=
  match ordering_key with
  | none => attrVal
  | some k => if k = "" then attrVal else some (PValue.str k)

/-! ## Concrete fixtures and serialization-length lemmas -/

/-- A concrete configuration object for closed theorems. -/
def confEx : PubsubConnectionConf :=
  { credentials := none
    project_id := "proj"
    bach_settings := { max_bytes := 1000000, max_messages := 100 }
    publisher_options := { enable_message_ordering := false, retry_default := true } }

/-- A small concrete message object. -/
def msgEx : PyObj := PyObj.int 1

/-- An environment holding only `GOOGLE_CLOUD_PROJECT`. -/
def envEx : String → Option String :=
  fun n => if n = "GOOGLE_CLOUD_PROJECT" then some "proj" else none

/-- An empty environment. -/
def envNone : String → Option String := fun _ => none

/-- A filesystem on which every service-account file is readable. -/
def loadEx : String → Option Credentials :=
  fun f => some { source_file := f }

theorem escapeChar_a : escapeChar 'a' = ['a'] := by decide

theorem utf8Char_a : utf8Char 'a' = [97] := by decide

theorem utf8Char_dq : utf8Char dq = [34] := by decide

theorem flatten_replicate_one {α : Type} (n : Nat) (x : α) :
    (List.replicate n [x]).flatten = List.replicate n x := by
  induction n with
  | zero => rfl
  | succ n ih => simp [List.replicate_succ, ih]

theorem jsonEscape_replicate_a (n : Nat) :
    jsonEscape (List.replicate n 'a') = List.replicate n 'a' := by
  simp [jsonEscape, List.map_replicate, escapeChar_a, flatten_replicate_one]

theorem utf8Encode_replicate_a (n : Nat) :
    utf8Encode (List.replicate n 'a') = List.replicate n 97 := by
  simp [utf8Encode, List.map_replicate, utf8Char_a, flatten_replicate_one]

/-- A payload of 999999 ASCII characters: serialized with surrounding JSON
quotes it occupies exactly `10^6 + 1` bytes, one above the default ceiling. -/
def bigChars : List Char := List.replicate 999999 'a'

/-- A message object whose serialized payload exceeds the default
`max_bytes` ceiling by one byte. -/
def bigMsg : PyObj := PyObj.str bigChars

theorem dumps_str (s : List Char) :
    dumps (PyObj.str s) = dq :: jsonEscape s ++ [dq] := by
  simp [dumps]

theorem payloadBytes_str_replicate_a (n : Nat) :
    payloadBytes (PyObj.str (List.replicate n 'a'))
      = [34] ++ (List.replicate n 97 ++ [34]) := by
  have h : utf8Encode (dq :: (List.replicate n 'a' ++ [dq]))
      = utf8Char dq ++ (utf8Encode (List.replicate n 'a') ++ utf8Char dq) := by
    simp [utf8Encode]
  simp only [payloadBytes, dumps_str, jsonEscape_replicate_a, List.cons_append,
    List.nil_append] at h ⊢
  rw [h, utf8Encode_replicate_a, utf8Char_dq]
  rfl

theorem payloadBytes_bigMsg_length : (payloadBytes bigMsg).length = 1000001 := by
  rw [show payloadBytes bigMsg = [34] ++ (List.replicate 999999 97 ++ [34]) from
    payloadBytes_str_replicate_a 999999]
  rw [List.length_append, List.length_append, List.length_replicate]
  decide

/-! ## Claims about `publish` (C1, C2, C4, C8, C10) -/

/-- Claim C1, counterexample.  The claim states that `publish` returns
immediately with a pending result handle and never blocks the caller on
network transit.  In the source, `publish` returns `future.result()`
(line 128): its return value IS the resolved outcome of the network call.
At one and the same input, the value the caller receives from `publish`
differs depending on how the sink resolves the future — with a pending
handle returned before transit this would be impossible. -/
theorem C1_counterexample :
    publish confEx (clientOk "A") "t" msgEx none none = Except.ok "A"
    ∧ publish confEx (clientFail (PubError.permanent "backend down")) "t"
        msgEx none none
      = Except.error (PubError.permanent "backend down") :=
  ⟨rfl, rfl⟩

/-- Claim C1, amended: `publish` does not return a pending handle; it forces
`future.result()` on the calling path, so its return value is exactly the
resolved outcome of the client's future for the forwarded parameters — the
message id on success, the typed error on failure. -/
theorem C1_amended (conf : PubsubConnectionConf) (client : DictS → Future)
    (topic : String) (message : PyObj)
    (attributes : Option (List (String × PValue)))
    (ordering_key : Option String) :
    publish conf client topic message attributes ordering_key
      = Future.result
          (client (publishParams conf topic message attributes ordering_key))
    ∧ ∀ id : String,
        publish conf client topic message attributes ordering_key
            = Except.ok id
          ↔ (client
              (publishParams conf topic message attributes
                ordering_key)).outcome = Except.ok id :=
  ⟨rfl, fun _ => Iff.rfl⟩

/-- Claim C2, counterexample.  The claim states that a payload exceeding the
absolute size ceiling makes `publish` fail synchronously with
`InvalidMessageError` before anything is forwarded.  The source performs no
validation at all: a message whose serialized payload is `10^6 + 1` bytes
(one above the only configured ceiling, the default `max_bytes`) is
serialized, forwarded, and the call succeeds with the sink's message id. -/
theorem C2_counterexample :
    DEFAULT_MESSAGE_SIZE < (payloadBytes bigMsg).length
    ∧ publish confEx (clientOk "id-2") "t" bigMsg none none
        = Except.ok "id-2" :=
  ⟨by rw [payloadBytes_bigMsg_length]; decide, rfl⟩

/-- Claim C2, amended: `publish` performs no payload validation whatsoever —
no `InvalidMessageError` exists in the code and no payload (empty, huge or
otherwise) is rejected; every message is serialized and forwarded, and the
call returns whatever the client resolves. -/
theorem C2_amended (conf : PubsubConnectionConf) (id : String)
    (topic : String) (message : PyObj)
    (attributes : Option (List (String × PValue)))
    (ordering_key : Option String) :
    publish conf (clientOk id) topic message attributes ordering_key
      = Except.ok id :=
  rfl

/-- Claim C4, counterexample.  The claim states that a single message whose
byte size exceeds `max_bytes` raises `PayloadTooLargeError` synchronously.
The source has no size check: a message of exactly `max_bytes + 1` =
`10^6 + 1` serialized bytes is forwarded and the call succeeds. -/
theorem C4_counterexample :
    (payloadBytes bigMsg).length = DEFAULT_MESSAGE_SIZE + 1
    ∧ publish confEx (clientOk "id-4") "t" bigMsg none none
        = Except.ok "id-4" :=
  ⟨by rw [payloadBytes_bigMsg_length]; decide, rfl⟩

/-- Claim C4, amended: `publish` performs no size check: a message whose
serialized payload exceeds the default `max_bytes` ceiling raises no
`PayloadTooLargeError`; its full byte payload is placed in the forwarded
`data` field and the call returns the client's acknowledgement. -/
theorem C4_amended (conf : PubsubConnectionConf) (topic : String)
    (message : PyObj)
    (_h : DEFAULT_MESSAGE_SIZE < (payloadBytes message).length) :
    publishParams conf topic message none none "data"
        = some (PValue.bytes (payloadBytes message))
    ∧ publish conf (clientOk "m-4") topic message none none
        = Except.ok "m-4" :=
  ⟨rfl, rfl⟩

/-- Claim C4, witness for the amended theorem at the concrete oversized
message `bigMsg`. -/
theorem C4_amended_witness :
    publishParams confEx "t" bigMsg none none "data"
        = some (PValue.bytes (payloadBytes bigMsg))
    ∧ publish confEx (clientOk "m-4") "t" bigMsg none none
        = Except.ok "m-4" :=
  C4_amended confEx "t" bigMsg (by rw [payloadBytes_bigMsg_length]; decide)

/-- Claim C8: for every message object, the bytes forwarded to the client
under the `data` key are exactly the UTF-8 encoding (`str.encode`) of the
JSON serialization (`json.dumps`) of that object (line 123). -/
theorem C8_data (conf : PubsubConnectionConf) (topic : String)
    (message : PyObj) (attributes : Option (List (String × PValue)))
    (ordering_key : Option String) :
    publishParams conf topic message attributes ordering_key "data"
      = some (PValue.bytes (utf8Encode (dumps message))) :=
  rfl

theorem dictUpdate_empty (f : DictS) (k : String) :
    dictUpdate (fun _ => none) f k = f k := by
  unfold dictUpdate
  cases f k <;> rfl

theorem attrsBase_eq (attributes : Option (List (String × PValue)))
    (k : String) : attrsBase attributes k = attrsValue attributes k := by
  cases attributes with
  | none => rfl
  | some a =>
      by_cases ha : a.isEmpty
      · have : a = [] := List.isEmpty_iff.mp ha
        subst this
        simp [attrsBase, attrsValue, dictOfList]
      · simp [attrsBase, ha, attrsValue, dictUpdate_empty]

/-- Claim C10, counterexample.  The claim states that an attributes entry at
any of the keys project, topic, data, ordering_key is overwritten by the
corresponding publish-level parameter.  With `attributes =
\x7b"ordering_key": "a"\x7d` and the parameter `ordering_key=None`, the
guard `if ordering_key:` (line 116) skips the update: the attribute's own
value "a" — not the parameter — is what reaches the client, where
`**_params` binds it as the `ordering_key` keyword argument. -/
theorem C10_counterexample :
    kwargOrderingKey
        (publishParams confEx "t" msgEx
          (some [("ordering_key", PValue.str "a")]) none)
      = some (PValue.str "a")
    ∧ kwargOrderingKey
        (publishParams confEx "t" msgEx
          (some [("ordering_key", PValue.str "a")]) none)
      ≠ Option.map PValue.str none := by
  refine ⟨by decide, ?_⟩
  intro hcontra
  rw [show kwargOrderingKey
        (publishParams confEx "t" msgEx
          (some [("ordering_key", PValue.str "a")]) none)
      = some (PValue.str "a") from by decide] at hcontra
  exact Option.noConfusion hcontra

/-- Claim C10, amended: the keys project, topic and data are always
overwritten by the publish-level values before the forwarding call; the key
ordering_key is overwritten only when the `ordering_key` parameter is a
truthy (non-empty) string.  When the parameter is `None` (or empty), an
attributes entry named ordering_key survives untouched in `_params` and is
forwarded as the client's `ordering_key` keyword argument rather than as
message metadata. -/
theorem C10_amended (conf : PubsubConnectionConf) (topic : String)
    (message : PyObj) (attributes : Option (List (String × PValue)))
    (ordering_key : Option String) :
    publishParams conf topic message attributes ordering_key "project"
        = some (PValue.str conf.project_id)
    ∧ publishParams conf topic message attributes ordering_key "topic"
        = some (PValue.str (topicPath conf.project_id topic))
    ∧ publishParams conf topic message attributes ordering_key "data"
        = some (PValue.bytes (payloadBytes message))
    ∧ kwargOrderingKey
          (publishParams conf topic message attributes ordering_key)
        = orderingForward ordering_key (attrsValue attributes "ordering_key") := by
  refine ⟨rfl, rfl, rfl, ?_⟩
  cases ordering_key with
  | none =>
      show attrsBase attributes "ordering_key"
        = attrsValue attributes "ordering_key"
      exact attrsBase_eq attributes "ordering_key"
  | some k =>
      by_cases hk : k = ""
      · subst hk
        show attrsBase attributes "ordering_key"
          = attrsValue attributes "ordering_key"
        exact attrsBase_eq attributes "ordering_key"
      · show (if k = "" then attrsBase attributes
            else upd (attrsBase attributes) "ordering_key" (PValue.str k))
              "ordering_key"
          = orderingForward (some k) (attrsValue attributes "ordering_key")
        simp [hk, upd, orderingForward]

/-! ## Claims about the configuration (C7, C9) -/

/-- Claim C7: when the configuration is constructed without explicit
batching values, the effective thresholds default to `max_messages = 100`
and `max_bytes = 1000000` (lines 15-16, 49-55). -/
theorem C7_defaults (env : String → Option String)
    (load : String → Option Credentials) (v : String)
    (h : env "GOOGLE_CLOUD_PROJECT" = some v) :
    ∃ c, mkPubsubConnectionConf env load none false none none = Except.ok c
      ∧ c.bach_settings.max_messages = 100
      ∧ c.bach_settings.max_bytes = 1000000 := by
  refine ⟨{ credentials := none, project_id := v
            bach_settings := setBatchSettings none none
            publisher_options := setPublisherOptions false }, ?_, ?_, ?_⟩
  · simp [mkPubsubConnectionConf, credentialsOf, getDefaultEnv, h]
  · rfl
  · rfl

/-- Claim C7, witness at a concrete environment holding the project id. -/
theorem C7_defaults_witness :
    ∃ c, mkPubsubConnectionConf envEx loadEx none false none none
        = Except.ok c
      ∧ c.bach_settings.max_messages = 100
      ∧ c.bach_settings.max_bytes = 1000000 :=
  C7_defaults envEx loadEx "proj" rfl

/-- Claim C9: given a readable service-account file whenever one is named,
constructing a `PubsubConnectionConf` raises `ValueError` if and only if
`GOOGLE_CLOUD_PROJECT` is unset in the environment; when it is set,
`project_id` equals its value (lines 26-47). -/
theorem C9_env_iff (env : String → Option String)
    (load : String → Option Credentials) (file : Option String) (emo : Bool)
    (mm mb : Option Nat)
    (hread : ∀ f, file = some f → f ≠ "" → (load f).isSome) :
    ((∃ m, mkPubsubConnectionConf env load file emo mm mb
          = Except.error (PyErr.valueError m))
        ↔ env "GOOGLE_CLOUD_PROJECT" = none)
    ∧ ∀ v, env "GOOGLE_CLOUD_PROJECT" = some v →
        ∃ c, mkPubsubConnectionConf env load file emo mm mb = Except.ok c
          ∧ c.project_id = v := by
  have hcred : ∃ cr, credentialsOf load file = Except.ok cr := by
    cases file with
    | none => exact ⟨none, rfl⟩
    | some f =>
        by_cases hf : f = ""
        · exact ⟨none, by simp [credentialsOf, hf]⟩
        · obtain ⟨c, hc⟩ := Option.isSome_iff_exists.mp (hread f rfl hf)
          exact ⟨some c, by simp [credentialsOf, hf, hc]⟩
  obtain ⟨cr, hcr⟩ := hcred
  cases he : env "GOOGLE_CLOUD_PROJECT" with
  | none =>
      constructor
      · constructor
        · intro _
          rfl
        · intro _
          refine ⟨"The default value for GOOGLE_CLOUD_PROJECT was not found in ENV FILE", ?_⟩
          simp [mkPubsubConnectionConf, getDefaultEnv, hcr, he]
      · intro v hv
        exact Option.noConfusion hv
  | some v0 =>
      constructor
      · constructor
        · intro hm
          obtain ⟨m, hm⟩ := hm
          rw [show mkPubsubConnectionConf env load file emo mm mb
              = Except.ok
                  { credentials := cr, project_id := v0
                    bach_settings := setBatchSettings mm mb
                    publisher_options := setPublisherOptions emo } from by
            simp [mkPubsubConnectionConf, getDefaultEnv, hcr, he]] at hm
          exact Except.noConfusion hm
        · intro hv
          exact Option.noConfusion hv
      · intro v hv
        have hv0 : v0 = v := Option.some.inj hv
        subst hv0
        refine ⟨{ credentials := cr, project_id := v0
                  bach_settings := setBatchSettings mm mb
                  publisher_options := setPublisherOptions emo }, ?_, rfl⟩
        simp [mkPubsubConnectionConf, getDefaultEnv, hcr, he]

/-- Claim C9, witness at the empty environment: construction fails with
`ValueError` exactly because `GOOGLE_CLOUD_PROJECT` is unset. -/
theorem C9_env_iff_witness :
    ((∃ m, mkPubsubConnectionConf envNone loadEx none false none none
          = Except.error (PyErr.valueError m))
        ↔ envNone "GOOGLE_CLOUD_PROJECT" = none)
    ∧ ∀ v, envNone "GOOGLE_CLOUD_PROJECT" = some v →
        ∃ c, mkPubsubConnectionConf envNone loadEx none false none none
            = Except.ok c
          ∧ c.project_id = v :=
  C9_env_iff envNone loadEx none false none none (fun _ hf => nomatch hf)

/-! ## Ordering lane model (spec sections 3, 4.2), for claims C3 and C5 -/

/-- Modelled from the spec: a MessageEnvelope reduced to the identity and
payload byte size the lane and batcher reason about (spec section 3); the
ordering key is fixed, one lane per key. -/
structure Envelope where
  eid : Nat
  size : Nat
deriving DecidableEq, Repr

/-- Modelled from the spec: the terminal outcome written into an envelope's
result slot (success with a message id, the permanent error of the failed
batch, or OrderingLaneAbortedError for queued successors). -/
inductive LaneOutcome where
  | success (message_id : String)
  | permanentFailure (err : String)
  | laneAborted
deriving DecidableEq, Repr

/-- Modelled from the spec: the state of one OrderingLane (spec section 4.2):
the FIFO queue of pending envelopes, the batches currently in transit
(the spec's `in_flight` flag allows at most one), the sequence of envelopes
the sink has observed, the resolved result slots, and whether the lane was
destroyed by a permanent failure. -/
structure LaneState where
  pending : List Envelope
  inFlight : List (List Envelope)
  sinkObserved : List Envelope
  results : List (Envelope × LaneOutcome)
  closed : Bool
deriving DecidableEq, Repr

/-- The lane created on first use: everything empty. -/
def laneInit : LaneState :=
  { pending := [], inFlight := [], sinkObserved := [], results := []
    closed := false }

/-- Modelled from the spec: the events that drive one ordering lane —
`enqueue` from PublishManager.publish, `dispatch n` for `try_dispatch`
taking the next prefix of `n` pending envelopes, and Sender completion,
successful or permanently failed. -/
inductive LaneEvent where
  | enqueue (e : Envelope)
  | dispatch (n : Nat)
  | completeOk (ids : List String)
  | completeFail (err : String)
deriving DecidableEq, Repr

/-- Modelled from the spec (section 4.2): one transition of an ordering
lane.  `dispatch` is allowed only while nothing is in flight (`try_dispatch`
returns a prefix only if `in_flight` is false) and takes a non-empty prefix
of at most `maxMessages` envelopes, which the sink then observes; completion
clears `in_flight`; a permanent failure resolves the in-transit batch with
the error itself, resolves every queued-but-undispatched envelope with
OrderingLaneAbortedError and destroys the lane (fail-fast, no retry).
Events impossible in a state yield `none`. -/
def laneStep (maxMessages : Nat) (s : LaneState) : LaneEvent → Option LaneState
  | LaneEvent.enqueue e =>
      if s.closed then none
      else some { s with pending := s.pending ++ [e] }
  | LaneEvent.dispatch n =>
      if s.closed then none
      else if not s.inFlight.isEmpty then none
      else if n = 0 then none
      else if maxMessages < n then none
      else if s.pending.length < n then none
      else
        some { pending := s.pending.drop n
               inFlight := [s.pending.take n]
               sinkObserved := s.sinkObserved ++ s.pending.take n
               results := s.results
               closed := false }
  | LaneEvent.completeOk ids =>
      match s.inFlight with
      | [b] =>
          if ids.length = b.length then
            some { s with
                   inFlight := []
                   results := s.results
                     ++ (b.zip ids).map
                          (fun p => (p.1, LaneOutcome.success p.2)) }
          else none
      | _ => none
  | LaneEvent.completeFail err =>
      match s.inFlight with
      | [b] =>
          some { pending := []
                 inFlight := []
                 sinkObserved := s.sinkObserved
                 results := s.results
                   ++ b.map (fun e => (e, LaneOutcome.permanentFailure err))
                   ++ s.pending.map (fun e => (e, LaneOutcome.laneAborted))
                 closed := true }
      | _ => none

/-- Run a lane from a given state through a list of events; `none` when an
event is impossible in its state. -/
def laneRunFrom (maxMessages : Nat) (s : LaneState) :
    List LaneEvent → Option LaneState
  | [] => some s
  | ev :: evs =>
      match laneStep maxMessages s ev with
      | none => none
      | some s2 => laneRunFrom maxMessages s2 evs

/-- Run a lane from its initial state. -/
def laneRun (maxMessages : Nat) (evs : List LaneEvent) : Option LaneState :=
  laneRunFrom maxMessages laneInit evs

/-- The envelopes enqueued by an event list, in enqueue order. -/
def enqueuedOf : List LaneEvent → List Envelope
  | [] => []
  | LaneEvent.enqueue e :: evs => e :: enqueuedOf evs
  | _ :: evs => enqueuedOf evs

/-- The lane invariant carried through every run: at most one batch is in
transit, and while the lane lives, what the sink observed followed by what
is still queued is exactly the enqueue order; once destroyed, the observed
sequence is a frozen prefix of the enqueue order and nothing is queued. -/
def LaneInv (enq : List Envelope) (s : LaneState) : Prop :=
  s.inFlight.length ≤ 1
  ∧ (s.closed = false → s.sinkObserved ++ s.pending = enq)
  ∧ (s.closed = true →
      (∃ k, s.sinkObserved = enq.take k) ∧ s.pending = [])

theorem enqueuedOf_cons (ev : LaneEvent) (evs : List LaneEvent) :
    enqueuedOf (ev :: evs) = enqueuedOf [ev] ++ enqueuedOf evs := by
  cases ev <;> simp [enqueuedOf]

theorem laneStep_inv (mm : Nat) (enq : List Envelope) (s s2 : LaneState)
    (ev : LaneEvent) (hinv : LaneInv enq s)
    (hstep : laneStep mm s ev = some s2) :
    LaneInv (enq ++ enqueuedOf [ev]) s2 := by
  obtain ⟨hfl, hlive, hclosed⟩ := hinv
  cases ev with
  | enqueue e =>
      cases hcv : s.closed with
      | true => simp [laneStep, hcv] at hstep
      | false =>
          simp only [laneStep, hcv, Bool.false_eq_true, if_false,
            Option.some.injEq] at hstep
          subst hstep
          refine ⟨hfl, ?_, ?_⟩
          · intro _
            rw [← List.append_assoc, hlive hcv]
            simp [enqueuedOf]
          · intro hcl
            exact absurd hcl (by simp [hcv])
  | dispatch n =>
      cases hcv : s.closed with
      | true => simp [laneStep, hcv] at hstep
      | false =>
          by_cases hif : s.inFlight.isEmpty
          · by_cases h0 : n = 0
            · simp [laneStep, hcv, hif, h0] at hstep
            · by_cases h1 : mm < n
              · simp [laneStep, hcv, hif, h0, h1] at hstep
              · by_cases h2 : s.pending.length < n
                · simp [laneStep, hcv, hif, h0, h1, h2] at hstep
                · simp only [laneStep, hcv, hif, h0, h1, h2,
                    Bool.false_eq_true, Bool.not_true, if_false, ite_false,
                    ite_true, not_false_eq_true, Option.some.injEq] at hstep
                  subst hstep
                  refine ⟨by simp, ?_, ?_⟩
                  · intro _
                    show s.sinkObserved ++ s.pending.take n
                        ++ s.pending.drop n = enq ++ enqueuedOf [LaneEvent.dispatch n]
                    rw [List.append_assoc, List.take_append_drop, hlive hcv]
                    simp [enqueuedOf]
                  · intro hcl
                    exact absurd hcl (by simp)
          · simp [laneStep, hcv, hif] at hstep
  | completeOk ids =>
      cases hfly : s.inFlight with
      | nil => simp [laneStep, hfly] at hstep
      | cons b rest =>
          cases rest with
          | cons b2 rest2 => simp [laneStep, hfly] at hstep
          | nil =>
              by_cases hlen : ids.length = b.length
              · simp only [laneStep, hfly, hlen, if_true, ite_true,
                  Option.some.injEq] at hstep
                subst hstep
                refine ⟨by simp, ?_, ?_⟩
                · intro hcl
                  rw [hlive hcl]
                  simp [enqueuedOf]
                · intro hcl
                  have := hclosed hcl
                  simpa [enqueuedOf] using this
              · simp [laneStep, hfly, hlen] at hstep
  | completeFail err =>
      cases hfly : s.inFlight with
      | nil => simp [laneStep, hfly] at hstep
      | cons b rest =>
          cases rest with
          | cons b2 rest2 => simp [laneStep, hfly] at hstep
          | nil =>
              simp only [laneStep, hfly, Option.some.injEq] at hstep
              subst hstep
              refine ⟨by simp, ?_, ?_⟩
              · intro hcl
                exact absurd hcl (by simp)
              · intro _
                refine ⟨?_, rfl⟩
                cases hcv : s.closed with
                | false =>
                    refine ⟨s.sinkObserved.length, ?_⟩
                    rw [← hlive hcv]
                    simp [enqueuedOf, List.take_left]
                | true =>
                    obtain ⟨⟨k, hk⟩, _⟩ := hclosed hcv
                    refine ⟨k, ?_⟩
                    simp only [enqueuedOf, List.append_nil]
                    exact hk

theorem laneRunFrom_inv (mm : Nat) :
    ∀ (evs : List LaneEvent) (enq : List Envelope) (s s2 : LaneState),
      LaneInv enq s → laneRunFrom mm s evs = some s2 →
      LaneInv (enq ++ enqueuedOf evs) s2 := by
  intro evs
  induction evs with
  | nil =>
      intro enq s s2 hinv hrun
      simp only [laneRunFrom, Option.some.injEq] at hrun
      subst hrun
      simpa [enqueuedOf] using hinv
  | cons ev evs ih =>
      intro enq s s2 hinv hrun
      unfold laneRunFrom at hrun
      cases hstep : laneStep mm s ev with
      | none => rw [hstep] at hrun; exact Option.noConfusion hrun
      | some s1 =>
          rw [hstep] at hrun
          have h1 := laneStep_inv mm enq s s1 ev hinv hstep
          have h2 := ih (enq ++ enqueuedOf [ev]) s1 s2 h1 hrun
          rw [enqueuedOf_cons, ← List.append_assoc]
          exact h2

/-- Claim C3: for every sequence of lane events (every reachable lane
state), at most one batch of the lane's ordering key is in transit, and the
sequence of messages the sink has observed is a prefix of the enqueue
order — the sink observes the key's messages in exactly the enqueue order,
with no skips and no overlap.  Modelled from the spec (section 4.2): the
dispatch engine exists only in the specification; the source delegates
ordering to the wrapped client. -/
theorem C3_ordering (mm : Nat) (evs : List LaneEvent) (s : LaneState)
    (h : laneRun mm evs = some s) :
    s.inFlight.length ≤ 1
    ∧ ∃ k, s.sinkObserved = (enqueuedOf evs).take k := by
  have hinit : LaneInv [] laneInit := by
    refine ⟨by simp [laneInit], ?_, ?_⟩
    · intro _
      rfl
    · intro hcl
      exact absurd hcl (by simp [laneInit])
  have hinv := laneRunFrom_inv mm evs [] laneInit s hinit h
  rw [List.nil_append] at hinv
  refine ⟨hinv.1, ?_⟩
  cases hcl : s.closed with
  | true => exact (hinv.2.2 hcl).1
  | false =>
      refine ⟨s.sinkObserved.length, ?_⟩
      rw [← hinv.2.1 hcl]
      exact (List.take_left _ _).symm

/-- A concrete lane trace: three envelopes enqueued, a first batch of two
dispatched and acknowledged, then a second batch dispatched. -/
def evsEx3 : List LaneEvent :=
  [LaneEvent.enqueue ⟨1, 1⟩, LaneEvent.enqueue ⟨2, 1⟩,
   LaneEvent.enqueue ⟨3, 1⟩, LaneEvent.dispatch 2,
   LaneEvent.completeOk ["a", "b"], LaneEvent.dispatch 1]

/-- The lane state the trace `evsEx3` reaches. -/
def stateEx3 : LaneState :=
  { pending := []
    inFlight := [[⟨3, 1⟩]]
    sinkObserved := [⟨1, 1⟩, ⟨2, 1⟩, ⟨3, 1⟩]
    results := [(⟨1, 1⟩, LaneOutcome.success "a"),
                (⟨2, 1⟩, LaneOutcome.success "b")]
    closed := false }

/-- Claim C3, witness at the concrete trace `evsEx3`. -/
theorem C3_ordering_witness :
    stateEx3.inFlight.length ≤ 1
    ∧ ∃ k, stateEx3.sinkObserved = (enqueuedOf evsEx3).take k :=
  C3_ordering 100 evsEx3 stateEx3 (by decide)

theorem laneRunFrom_append (mm : Nat) (evs1 evs2 : List LaneEvent) :
    ∀ s : LaneState,
      laneRunFrom mm s (evs1 ++ evs2)
        = (laneRunFrom mm s evs1).bind
            (fun s1 => laneRunFrom mm s1 evs2) := by
  induction evs1 with
  | nil => intro s; rfl
  | cons ev evs1 ih =>
      intro s
      cases hstep : laneStep mm s ev with
      | none => simp [laneRunFrom, hstep]
      | some s2 =>
          simp only [List.cons_append, laneRunFrom, hstep]
          exact ih s2

theorem laneRunFrom_enqueues (mm : Nat) (l : List Envelope) :
    ∀ s : LaneState, s.closed = false →
      laneRunFrom mm s (l.map LaneEvent.enqueue)
        = some { s with pending := s.pending ++ l } := by
  induction l with
  | nil =>
      intro s hc
      simp [laneRunFrom]
  | cons e l ih =>
      intro s hc
      have hstep : laneStep mm s (LaneEvent.enqueue e)
          = some { s with pending := s.pending ++ [e] } := by
        simp [laneStep, hc]
      have hrec := ih { s with pending := s.pending ++ [e] } hc
      rw [List.append_assoc] at hrec
      simp only [List.map_cons, laneRunFrom, hstep]
      exact hrec

/-- Claim C5: when the first dispatched batch of an ordering lane fails
permanently at the sink, the envelopes of that batch resolve with the
permanent error itself, every queued-but-undispatched envelope of the key
resolves with OrderingLaneAbortedError, the sink never observes the
successors, and the lane is dead: no further event (no retry, no dispatch)
is possible.  Modelled from the spec (sections 4.2, 4.3, 8): this fail-fast
policy exists only in the specification's core. -/
theorem C5_lane_abort (mm : Nat) (l : List Envelope) (n : Nat) (err : String)
    (s : LaneState)
    (h : laneRun mm (l.map LaneEvent.enqueue
          ++ [LaneEvent.dispatch n, LaneEvent.completeFail err]) = some s) :
    s.results = (l.take n).map (fun e => (e, LaneOutcome.permanentFailure err))
        ++ (l.drop n).map (fun e => (e, LaneOutcome.laneAborted))
    ∧ s.sinkObserved = l.take n
    ∧ s.pending = []
    ∧ s.closed = true
    ∧ ∀ ev, laneStep mm s ev = none := by
  rw [laneRun, laneRunFrom_append, laneRunFrom_enqueues mm l laneInit rfl,
    Option.some_bind] at h
  simp only [laneInit, List.nil_append] at h
  by_cases h0 : n = 0
  · simp [laneRunFrom, laneStep, h0] at h
  by_cases h1 : mm < n
  · simp [laneRunFrom, laneStep, h0, h1] at h
  by_cases h2 : l.length < n
  · simp [laneRunFrom, laneStep, h0, h1, h2] at h
  have hd : laneStep mm
      { pending := l, inFlight := [], sinkObserved := [], results := []
        closed := false } (LaneEvent.dispatch n)
      = some { pending := l.drop n, inFlight := [l.take n]
               sinkObserved := l.take n, results := [], closed := false } := by
    simp [laneStep, h0, h1, h2]
  have hf : laneStep mm
      { pending := l.drop n, inFlight := [l.take n]
        sinkObserved := l.take n, results := [], closed := false }
      (LaneEvent.completeFail err)
      = some { pending := [], inFlight := []
               sinkObserved := l.take n
               results := (l.take n).map
                   (fun e => (e, LaneOutcome.permanentFailure err))
                 ++ (l.drop n).map (fun e => (e, LaneOutcome.laneAborted))
               closed := true } := by
    simp [laneStep]
  rw [show laneRunFrom mm
      { pending := l, inFlight := [], sinkObserved := [], results := []
        closed := false }
      [LaneEvent.dispatch n, LaneEvent.completeFail err]
      = some { pending := [], inFlight := []
               sinkObserved := l.take n
               results := (l.take n).map
                   (fun e => (e, LaneOutcome.permanentFailure err))
                 ++ (l.drop n).map (fun e => (e, LaneOutcome.laneAborted))
               closed := true } from by
    simp [laneRunFrom, hd, hf]] at h
  obtain rfl : _ = s := Option.some.inj h
  refine ⟨rfl, rfl, rfl, rfl, ?_⟩
  intro ev
  cases ev <;> rfl

/-- Five envelopes sharing one ordering key, as in the spec's scenario. -/
def envsEx5 : List Envelope :=
  [⟨1, 1⟩, ⟨2, 1⟩, ⟨3, 1⟩, ⟨4, 1⟩, ⟨5, 1⟩]

/-- The lane state after the first dispatched batch (message 1) fails
permanently. -/
def stateEx5 : LaneState :=
  { pending := []
    inFlight := []
    sinkObserved := [⟨1, 1⟩]
    results := [(⟨1, 1⟩, LaneOutcome.permanentFailure "perm"),
                (⟨2, 1⟩, LaneOutcome.laneAborted),
                (⟨3, 1⟩, LaneOutcome.laneAborted),
                (⟨4, 1⟩, LaneOutcome.laneAborted),
                (⟨5, 1⟩, LaneOutcome.laneAborted)]
    closed := true }

/-- Claim C5, witness: the spec's five-message scenario with the first
batch failing permanently. -/
theorem C5_lane_abort_witness :
    stateEx5.results
        = (envsEx5.take 1).map
            (fun e => (e, LaneOutcome.permanentFailure "perm"))
          ++ (envsEx5.drop 1).map (fun e => (e, LaneOutcome.laneAborted))
    ∧ stateEx5.sinkObserved = envsEx5.take 1 :=
  ⟨(C5_lane_abort 100 envsEx5 1 "perm" stateEx5 (by decide)).1,
   (C5_lane_abort 100 envsEx5 1 "perm" stateEx5 (by decide)).2.1⟩

/-! ## Batcher model (spec section 4.1), for claim C6 -/

/-- Modelled from the spec: the Batcher's state for one destination — the
open batch with its running byte total, and the sealed batches handed to the
Sender, each recorded with its total_bytes at dispatch time. -/
structure BatcherState where
  openBatch : List Envelope
  openBytes : Nat
  dispatched : List (List Envelope × Nat)
deriving DecidableEq, Repr

/-- The batcher starts with an empty open batch and nothing dispatched. -/
def batcherInit : BatcherState :=
  { openBatch := [], openBytes := 0, dispatched := [] }

/-- Modelled from the spec: the events driving the Batcher — `add` from the
publish path and the time-based latency trigger that seals an open batch. -/
inductive BatchEvent where
  | add (e : Envelope)
  | latencyFlush
deriving DecidableEq, Repr

/-- The error of the Batcher's single-envelope size check. -/
inductive BatcherError where
  | payloadTooLarge (size maxBytes : Nat)
deriving DecidableEq, Repr

/-- Modelled from the spec (section 4.1): `add` rejects with
PayloadTooLargeError any single envelope whose byte size alone exceeds
max_bytes; otherwise it inserts the envelope and, AFTER insertion, seals and
dispatches the batch when total_bytes has reached max_bytes or the count has
reached max_messages.  The latency trigger seals a non-empty open batch
regardless of the thresholds. -/
def batcherStep (maxMessages maxBytes : Nat) (s : BatcherState) :
    BatchEvent → Except BatcherError BatcherState
  | BatchEvent.add e =>
      if maxBytes < e.size then
        Except.error (BatcherError.payloadTooLarge e.size maxBytes)
      else
        let b := s.openBatch ++ [e]
        let t := s.openBytes + e.size
        if maxBytes ≤ t ∨ maxMessages ≤ b.length then
          Except.ok { openBatch := [], openBytes := 0
                      dispatched := s.dispatched ++ [(b, t)] }
        else
          Except.ok { openBatch := b, openBytes := t
                      dispatched := s.dispatched }
  | BatchEvent.latencyFlush =>
      match s.openBatch with
      | [] => Except.ok s
      | _ =>
          Except.ok { openBatch := [], openBytes := 0
                      dispatched := s.dispatched
                        ++ [(s.openBatch, s.openBytes)] }

/-- Run the Batcher from a given state through a list of events. -/
def batcherRunFrom (maxMessages maxBytes : Nat) (s : BatcherState) :
    List BatchEvent → Except BatcherError BatcherState
  | [] => Except.ok s
  | ev :: evs =>
      match batcherStep maxMessages maxBytes s ev with
      | Except.error e => Except.error e
      | Except.ok s2 => batcherRunFrom maxMessages maxBytes s2 evs

/-- Run the Batcher from its initial state. -/
def batcherRun (maxMessages maxBytes : Nat) (evs : List BatchEvent) :
    Except BatcherError BatcherState :=
  batcherRunFrom maxMessages maxBytes batcherInit evs

/-- Claim C6, counterexample.  The claim (and spec section 8) states that
every batch satisfies total_bytes ≤ max_bytes at dispatch time.  Under the
spec's own Batcher algorithm (section 4.1: single envelopes up to max_bytes
are admitted and the size trigger fires only AFTER insertion), with
max_bytes = 10 two envelopes of 9 bytes each land in one batch that is
dispatched with total_bytes = 18 > 10. -/
theorem C6_counterexample :
    batcherRun 100 10 [BatchEvent.add ⟨1, 9⟩, BatchEvent.add ⟨2, 9⟩]
      = Except.ok { openBatch := [], openBytes := 0
                    dispatched := [([⟨1, 9⟩, ⟨2, 9⟩], 18)] }
    ∧ 10 < 18 := by
  exact ⟨rfl, by decide⟩

/-- The Batcher invariant: the open batch is strictly under both
thresholds (otherwise it would have been sealed), and every dispatched batch
respects the count bound and stays under twice the byte bound. -/
def BatcherInv (mm mb : Nat) (s : BatcherState) : Prop :=
  s.openBytes < mb ∧ s.openBatch.length < mm
  ∧ ∀ p ∈ s.dispatched, p.1.length ≤ mm ∧ p.2 ≤ 2 * mb - 1

theorem batcherStep_inv (mm mb : Nat) (hmm : 0 < mm) (hmb : 0 < mb)
    (s s2 : BatcherState) (ev : BatchEvent) (hinv : BatcherInv mm mb s)
    (hstep : batcherStep mm mb s ev = Except.ok s2) :
    BatcherInv mm mb s2 := by
  obtain ⟨hob, hol, hdisp⟩ := hinv
  cases ev with
  | add e =>
      by_cases hsz : mb < e.size
      · simp [batcherStep, hsz] at hstep
      · have hsz2 : e.size ≤ mb := Nat.le_of_not_lt hsz
        by_cases htrig : mb ≤ s.openBytes + e.size
            ∨ mm ≤ (s.openBatch ++ [e]).length
        · simp only [batcherStep, hsz, htrig, if_neg, if_pos, ite_true,
            ite_false, not_false_eq_true, Except.ok.injEq] at hstep
          subst hstep
          refine ⟨hmb, hmm, ?_⟩
          intro p hp
          rw [List.mem_append] at hp
          cases hp with
          | inl hp => exact hdisp p hp
          | inr hp =>
              rw [List.mem_singleton] at hp
              subst hp
              constructor
              · simp only [List.length_append, List.length_singleton]
                omega
              · simp only []
                omega
        · simp only [batcherStep, hsz, htrig, if_neg, ite_false,
            not_false_eq_true, Except.ok.injEq] at hstep
          subst hstep
          push_neg at htrig
          exact ⟨htrig.1, htrig.2, hdisp⟩
  | latencyFlush =>
      cases hopen : s.openBatch with
      | nil =>
          simp only [batcherStep, hopen, Except.ok.injEq] at hstep
          subst hstep
          exact ⟨hob, hol, hdisp⟩
      | cons e rest =>
          simp only [batcherStep, hopen, Except.ok.injEq] at hstep
          subst hstep
          refine ⟨hmb, hmm, ?_⟩
          intro p hp
          rw [List.mem_append] at hp
          cases hp with
          | inl hp => exact hdisp p hp
          | inr hp =>
              rw [List.mem_singleton] at hp
              subst hp
              constructor
              · rw [← hopen]
                exact Nat.le_of_lt hol
              · omega

theorem batcherRunFrom_inv (mm mb : Nat) (hmm : 0 < mm) (hmb : 0 < mb) :
    ∀ (evs : List BatchEvent) (s s2 : BatcherState),
      BatcherInv mm mb s → batcherRunFrom mm mb s evs = Except.ok s2 →
      BatcherInv mm mb s2 := by
  intro evs
  induction evs with
  | nil =>
      intro s s2 hinv hrun
      simp only [batcherRunFrom, Except.ok.injEq] at hrun
      subst hrun
      exact hinv
  | cons ev evs ih =>
      intro s s2 hinv hrun
      unfold batcherRunFrom at hrun
      cases hstep : batcherStep mm mb s ev with
      | error e => rw [hstep] at hrun; exact Except.noConfusion hrun
      | ok s1 =>
          rw [hstep] at hrun
          exact ih s1 s2 (batcherStep_inv mm mb hmm hmb s s1 ev hinv hstep)
            hrun

/-- Claim C6 (amended): under the spec's Batcher algorithm (section 4.1),
every batch at the moment it is handed to the Sender contains at most
max_messages envelopes, and its total_bytes is at most 2 * max_bytes - 1 —
not max_bytes: the open batch is strictly below max_bytes before the final
insertion and the admitted envelope may itself carry up to max_bytes, since
the size trigger fires only after insertion. -/
theorem C6_amended (mm mb : Nat) (hmm : 0 < mm) (hmb : 0 < mb)
    (evs : List BatchEvent) (s : BatcherState)
    (h : batcherRun mm mb evs = Except.ok s) :
    ∀ p ∈ s.dispatched, p.1.length ≤ mm ∧ p.2 ≤ 2 * mb - 1 := by
  have hinit : BatcherInv mm mb batcherInit := by
    refine ⟨hmb, hmm, ?_⟩
    intro p hp
    simp [batcherInit] at hp
  exact (batcherRunFrom_inv mm mb hmm hmb evs batcherInit s hinit h).2.2

/-- Claim C6, witness for the amended theorem at the concrete
two-envelope run. -/
theorem C6_amended_witness :
    ([(⟨1, 9⟩ : Envelope), ⟨2, 9⟩]).length ≤ 100 ∧ (18 : Nat) ≤ 2 * 10 - 1 :=
  C6_amended 100 10 (by decide) (by decide)
    [BatchEvent.add ⟨1, 9⟩, BatchEvent.add ⟨2, 9⟩]
    { openBatch := [], openBytes := 0
      dispatched := [([⟨1, 9⟩, ⟨2, 9⟩], 18)] }
    rfl ([⟨1, 9⟩, ⟨2, 9⟩], 18) (by decide)
